import Mathlib

/-!
Verification development for the Jobs API microservice.

Shallow embedding of the mutation handlers of `src/app/api/v1/jobs.py`
(`create_job`, `replace_job`, `update_job`), the value-normalization helper
`_to_plain`, the field-name table `FIELD_MAP`, the response builder
`_job_model_to_response` together with `_ensure_tz`, and the record model of
`src/app/models.py`.  The store is a list of job records; a handler returns
the resulting store, an outcome (the job on success, the HTTP error kind on
failure), and the list of Change Notifier invocations it performed.
-/

namespace JobsApi

/-- Primitive Python runtime values that `_to_plain` passes through unchanged
(`str`, `int`, `float`, `bool`).  Floats are only ever carried, never computed
with, so they are represented by an opaque mantissa/exponent pair. -/
inductive Prim where
  | pstr (s : String)
  | pint (n : Int)
  | pfloat (mantissa : Int) (exponent : Int)
  | pbool (b : Bool)

/-- A naive-or-aware timestamp: `tz = none` models a naive Python `datetime`,
`tz = some off` one carrying a fixed UTC offset (in minutes). -/
structure DateTimeV where
  stamp : Int
  tz : Option Int

/-- A JSON-plain value, as produced by pydantic's
`model_dump(mode="json", by_alias=True)`: only null, primitives, arrays and
string-keyed objects occur in such a dump. -/
inductive Plain where
  | jnull
  | jprim (p : Prim)
  | jarr (items : List Plain)
  | jobj (entries : List (String × Plain))

/-- A Python runtime value as seen by `_to_plain` in
`src/app/api/v1/jobs.py`.  Each constructor corresponds to exactly one branch
of the Python `isinstance`/`hasattr` dispatch: `None`, an `Enum` member (every
enum of this schema carries a primitive `.value`), a pydantic model (its
`model_dump(mode="json", by_alias=True)` object is carried directly, and is
JSON-plain by construction), a `list`, a `dict`, a `datetime`, a primitive,
and the fallback of any other object whose `str()` is carried. -/
inductive Value where
  | vnone
  | venum (p : Prim)
  | vmodel (dump : List (String × Plain))
  | vlist (items : List Value)
  | vdict (entries : List (String × Value))
  | vdatetime (d : DateTimeV)
  | vprim (p : Prim)
  | vother (s : String)

mutual

/-- Injection of a JSON-plain value into the runtime value type (a pydantic
JSON dump re-enters `_to_plain` as ordinary dicts/lists/primitives). -/
def plainToValue : Plain → Value
  | .jnull => .vnone
  | .jprim p => .vprim p
  | .jarr items => .vlist (plainListToValue items)
  | .jobj entries => .vdict (plainObjToValue entries)

def plainListToValue : List Plain → List Value
  | [] => []
  | x :: xs => plainToValue x :: plainListToValue xs

def plainObjToValue : List (String × Plain) → List (String × Value)
  | [] => []
  | (k, v) :: xs => (k, plainToValue v) :: plainObjToValue xs

end

mutual

/-- Embedding of `_to_plain` (src/app/api/v1/jobs.py:74-88): `None` stays,
an enum is reduced to its `.value`, an object with `model_dump` is replaced by
its JSON dump, lists and dicts are normalized recursively, a `datetime` is
returned unchanged, primitives stay, and any other value becomes its `str()`
representation. -/
def toPlain : Value → Value
  | .vnone => .vnone
  | .venum p => .vprim p
  | .vmodel dump => .vdict (plainObjToValue dump)
  | .vlist items => .vlist (toPlainList items)
  | .vdict entries => .vdict (toPlainEntries entries)
  | .vdatetime d => .vdatetime d
  | .vprim p => .vprim p
  | .vother s => .vprim (.pstr s)

def toPlainList : List Value → List Value
  | [] => []
  | v :: vs => toPlain v :: toPlainList vs

def toPlainEntries : List (String × Value) → List (String × Value)
  | [] => []
  | (k, v) :: kvs => (k, toPlain v) :: toPlainEntries kvs

end

/-- The wire-to-storage field-name table `FIELD_MAP`
(src/app/api/v1/jobs.py:46-71), verbatim. -/
def FIELD_MAP : List (String × String) :=
  [("externalId", "external_id"),
   ("assignmentType", "assignment_type"),
   ("workLocation", "work_location"),
   ("workingPattern", "working_pattern"),
   ("personalSpec", "personal_spec"),
   ("applyDetail", "apply_detail"),
   ("closingDate", "closing_date"),
   ("recruitmentEmail", "recruitment_email"),
   ("nationalityRequirement", "nationality_requirement"),
   ("jobNumbers", "job_numbers"),
   ("successProfileDetails", "success_profile_details"),
   ("diversityStatement", "diversity_statement"),
   ("disabilityConfident", "disability_confident"),
   ("applyUrl", "apply_url"),
   ("dcStatus", "dc_status"),
   ("redeploymentScheme", "redeployment_scheme"),
   ("prisonScheme", "prison_scheme"),
   ("veteranScheme", "veteran_scheme"),
   ("criminalRecordCheck", "criminal_record_check"),
   ("complaintsInfo", "complaints_info"),
   ("workingForTheCivilService", "working_for_the_civil_service"),
   ("eligibilityCheck", "eligibility_check"),
   ("dateClosing", "closing_date"),
   ("datePosted", "date_posted")]

/-- Python's `FIELD_MAP.get(key, key)`: translate a wire key to its storage
column, keys absent from the table passing through unchanged. -/
def mapField (k : String) : String :=
  match FIELD_MAP.find? (fun e => e.1 == k) with
  | some e => e.2
  | none => k

/-- Python dict assignment `d[k] = v`: replace the value at an existing key in
place, otherwise append the new key at the end. -/
def dictInsert : List (String × Value) → String → Value → List (String × Value)
  | [], k, v => [(k, v)]
  | e :: rest, k, v => if e.1 == k then (k, v) :: rest else e :: dictInsert rest k v

/-- Embedding of `_normalize_payload` (src/app/api/v1/jobs.py:91-97) applied
to an already-dumped payload: each (wire key, value) entry is re-keyed through
`FIELD_MAP` and its value is normalized with `_to_plain`, accumulating into a
dict. -/
def normalizeEntries (entries : List (String × Value)) : List (String × Value) :=
  entries.foldl (fun acc kv => dictInsert acc (mapField kv.1) (toPlain kv.2)) []

/-- A `JobCreatePayload` after pydantic validation: `external_id` is the
(string-typed) external id field, `fields` are the remaining schema fields of
the full dump, keyed by their wire alias. -/
structure CreatePayload where
  external_id : String
  fields : List (String × Value)

/-- A `JobUpdatePayload` after `model_dump(by_alias=True, exclude_unset=True)`:
exactly the explicitly-supplied fields, keyed by wire alias; a field supplied
as `null` appears with value `Value.vnone`. -/
structure UpdatePayload where
  entries : List (String × Value)

/-- The full dump of a create/replace payload
(`model_dump(by_alias=True)` without `exclude_unset`): every schema field,
with the external id under its wire alias. -/
def normalizeCreate (p : CreatePayload) : List (String × Value) :=
  normalizeEntries (("externalId", .vprim (.pstr p.external_id)) :: p.fields)

/-- A persisted `JobModel` row (src/app/models.py): the primary key `id`, the
`version` counter, the unique `external_id`, and the remaining columns as a
attribute dict. -/
structure Job where
  id : String
  version : Nat
  external_id : String
  attrs : List (String × Value)

/-- Column read on a job record for the generically-held columns. -/
def getAttr (j : Job) (k : String) : Option Value :=
  (j.attrs.find? (fun kv => kv.1 == k)).map (fun kv => kv.2)

/-- The payload schema types `external_id` as `str`; this projects the value
written into that column (the non-string branch is unreachable for
schema-validated payloads). -/
def valueAsStr (v : Value) (dflt : String) : String :=
  match v with
  | .vprim (.pstr s) => s
  | _ => dflt

/-- Integer projection for the `version` column (the non-integer branch is
unreachable: no payload schema carries a version field). -/
def valueAsNat (v : Value) (dflt : Nat) : Nat :=
  match v with
  | .vprim (.pint n) => n.toNat
  | _ => dflt

/-- Python `setattr(job, key, value)` on a `JobModel` instance: the typed
columns `external_id` and `version` are dispatched to their record fields,
every other column lands in the attribute dict. -/
def setAttr (j : Job) (key : String) (v : Value) : Job :=
  if key == "external_id" then { j with external_id := valueAsStr v j.external_id }
  else if key == "version" then { j with version := valueAsNat v j.version }
  else { j with attrs := dictInsert j.attrs key v }

/-- One step of the `setattr` loop of `replace_job` and `update_job`
(src/app/api/v1/jobs.py:204-207 and 232-235): the primary-key column `id` is
skipped, every other entry is assigned. -/
def setAttrSkipId (j : Job) (kv : String × Value) : Job :=
  if kv.1 == "id" then j else setAttr j kv.1 kv.2

/-- The `setattr` loops of `replace_job` and `update_job`: apply every
normalized entry in order, skipping the primary-key column `id`. -/
def applyUpdates (j : Job) (updates : List (String × Value)) : Job :=
  updates.foldl setAttrSkipId j

/-- One keyword argument of `JobModel(**normalized)`: every column named in
the dict is assigned, including `id` were it present. -/
def setAttrNew (j : Job) (kv : String × Value) : Job :=
  if kv.1 == "id" then { j with id := valueAsStr kv.2 j.id } else setAttr j kv.1 kv.2

/-- `JobModel(**normalized)` in `create_job`: column defaults give the
generated primary key and `version = 1` (src/app/models.py:27-28), then every
keyword argument sets its column. -/
def jobModelNew (newId : String) (normalized : List (String × Value)) : Job :=
  normalized.foldl setAttrNew { id := newId, version := 1, external_id := "", attrs := [] }

/-- Python's `(job.version or 0)` on the non-nullable integer column: `None`
cannot occur, and `0 or 0 = 0`, so this is the identity on `Nat`. -/
def pyOrZero (v : Nat) : Nat := if v == 0 then 0 else v

/-- The client-facing error taxonomy of the three mutation handlers. -/
inductive ApiError where
  | conflict
  | notFound
  | badRequest
deriving DecidableEq

/-- The `Operation` enum of src/app/queue.py:16-19. -/
inductive Operation where
  | createOp
  | updateOp
  | replaceOp
deriving DecidableEq

/-- A Change Notifier invocation (`send_job_message(job, operation)`). -/
structure Notification where
  jobId : String
  externalId : String
  operation : Operation

/-- The observable effect of one handler call: the resulting store, the
outcome (job on success, error kind on a raised `HTTPException`), and the
Change Notifier invocations performed during the call. -/
structure ExecResult where
  db : List Job
  outcome : Except ApiError Job
  sent : List Notification

/-- `db.query(JobModel).filter(JobModel.external_id == x).first()`. -/
def findJob (db : List Job) (extId : String) : Option Job :=
  db.find? (fun j => j.external_id == extId)

/-- `db.commit()` after mutating a fetched ORM object: the row with the
mutated object's primary key now holds the new column values. -/
def updateStore (db : List Job) (pk : String) (j2 : Job) : List Job :=
  db.map (fun j => if j.id == pk then j2 else j)

/-- Embedding of `create_job` (src/app/api/v1/jobs.py:166-180): look up by the
payload's external id; on a hit raise 409 Conflict; otherwise normalize the
full dump, construct the row, and persist it.  The handler performs no
`send_job_message` call on any path, so `sent` is empty. -/
def create_job (newId : String) (db : List Job) (p : CreatePayload) : ExecResult :=
  match findJob db p.external_id with
  | some _ => ⟨db, .error .conflict, []⟩
  | none =>
    ⟨db ++ [jobModelNew newId (normalizeCreate p)],
     .ok (jobModelNew newId (normalizeCreate p)), []⟩

/-- Embedding of `replace_job` (src/app/api/v1/jobs.py:191-212): 400 when the
body external id differs from the path (before any lookup), 404 on a lookup
miss, otherwise overwrite every normalized column except `id`, then set
`version = (version or 0) + 1` and commit.  No `send_job_message` call occurs
on any path. -/
def replace_job (db : List Job) (pathId : String) (p : CreatePayload) : ExecResult :=
  if p.external_id ≠ pathId then ⟨db, .error .badRequest, []⟩
  else
    match findJob db pathId with
    | none => ⟨db, .error .notFound, []⟩
    | some job =>
      ⟨updateStore db job.id
        { applyUpdates job (normalizeCreate p) with
          version := pyOrZero (applyUpdates job (normalizeCreate p)).version + 1 },
       .ok { applyUpdates job (normalizeCreate p) with
             version := pyOrZero (applyUpdates job (normalizeCreate p)).version + 1 },
       []⟩

/-- Embedding of `update_job` (src/app/api/v1/jobs.py:215-240): 404 on a
lookup miss; 400 when the normalized update dict contains the `external_id`
column at all; when the dict is empty, no mutation and the current record is
returned; otherwise apply the supplied columns (skipping `id`), set
`version = (version or 0) + 1` and commit.  No `send_job_message` call occurs
on any path. -/
def update_job (db : List Job) (pathId : String) (p : UpdatePayload) : ExecResult :=
  match findJob db pathId with
  | none => ⟨db, .error .notFound, []⟩
  | some job =>
    if (normalizeEntries p.entries).any (fun kv => kv.1 == "external_id") then
      ⟨db, .error .badRequest, []⟩
    else if (normalizeEntries p.entries).isEmpty then ⟨db, .ok job, []⟩
    else
      ⟨updateStore db job.id
        { applyUpdates job (normalizeEntries p.entries) with
          version := pyOrZero (applyUpdates job (normalizeEntries p.entries)).version + 1 },
       .ok { applyUpdates job (normalizeEntries p.entries) with
             version := pyOrZero (applyUpdates job (normalizeEntries p.entries)).version + 1 },
       []⟩

/-- What pydantic guarantees about the non-identifier fields of a dumped
create/replace payload: `model_dump` emits each schema field once under its
wire alias, and the schema has no field mapping to the `id`, `version` or
`external_id` column (the external id is carried separately). -/
def goodFields (fields : List (String × Value)) : Prop :=
  ∀ kv ∈ fields,
    mapField kv.1 ≠ "id" ∧ mapField kv.1 ≠ "version" ∧ mapField kv.1 ≠ "external_id"

/-- What pydantic guarantees about a dumped patch payload: no schema field
maps to the `version` column (clients cannot set the version). -/
def goodPatchFields (entries : List (String × Value)) : Prop :=
  ∀ kv ∈ entries, mapField kv.1 ≠ "version"

instance (fields : List (String × Value)) : Decidable (goodFields fields) :=
  inferInstanceAs (Decidable (∀ kv ∈ fields, _ ∧ _ ∧ _))

instance (entries : List (String × Value)) : Decidable (goodPatchFields entries) :=
  inferInstanceAs (Decidable (∀ kv ∈ entries, _ ≠ _))

/-- Embedding of `_ensure_tz` (src/app/api/v1/jobs.py:100-103): a naive
datetime is stamped with the UTC offset, everything else passes through. -/
def ensureTz (v : Value) : Value :=
  match v with
  | .vdatetime d => .vdatetime (if d.tz.isNone then { d with tz := some 0 } else d)
  | w => w


/-- The fixed response schema: (wire key, storage column) for every field
emitted by `_job_model_to_response` (src/app/api/v1/jobs.py:106-146), in
source order.  The storage columns are read verbatim from the source; the
wire keys are Modelled from the spec: the aliases live in the external
`jobs_data_contracts` package, which per the spec follows the camelCase wire
convention for each response field name. -/
def WIRE_RESPONSE : List (String × String) :=
  [("id", "id"),
   ("version", "version"),
   ("externalId", "external_id"),
   ("approach", "approach"),
   ("title", "title"),
   ("description", "description"),
   ("organisation", "organisation"),
   ("location", "location"),
   ("grade", "grade"),
   ("assignmentType", "assignment_type"),
   ("workLocation", "work_location"),
   ("workingPattern", "working_pattern"),
   ("personalSpec", "personal_spec"),
   ("applyDetail", "apply_detail"),
   ("datePosted", "date_posted"),
   ("dateClosing", "closing_date"),
   ("profession", "profession"),
   ("recruitmentEmail", "recruitment_email"),
   ("contacts", "contacts"),
   ("nationalityRequirement", "nationality_requirement"),
   ("summary", "summary"),
   ("applyUrl", "apply_url"),
   ("benefits", "benefits"),
   ("salary", "salary"),
   ("jobNumbers", "job_numbers"),
   ("successProfileDetails", "success_profile_details"),
   ("diversityStatement", "diversity_statement"),
   ("disabilityConfident", "disability_confident"),
   ("dcStatus", "dc_status"),
   ("redeploymentScheme", "redeployment_scheme"),
   ("prisonScheme", "prison_scheme"),
   ("veteranScheme", "veteran_scheme"),
   ("criminalRecordCheck", "criminal_record_check"),
   ("complaintsInfo", "complaints_info"),
   ("workingForTheCivilService", "working_for_the_civil_service"),
   ("eligibilityCheck", "eligibility_check"),
   ("attachments", "attachments")]

/-- The storage-to-wire direction of the mapping: a storage column is emitted
by `_job_model_to_response` under its response field, which serializes under
its wire alias; columns outside the schema pass through unchanged. -/
def storageToWire (c : String) : String :=
  match WIRE_RESPONSE.find? (fun e => e.2 == c) with
  | some e => e.1
  | none => c

/-- Read a column of the record, dispatching the typed columns. -/
def getCol (j : Job) (c : String) : Value :=
  if c == "id" then .vprim (.pstr j.id)
  else if c == "version" then .vprim (.pint j.version)
  else if c == "external_id" then .vprim (.pstr j.external_id)
  else (getAttr j c).getD .vnone

/-- Embedding of `_job_model_to_response` (src/app/api/v1/jobs.py:106-146)
composed with the response model's alias serialization: every field of the
payload dict built there, in source order, emitted under its wire key with
the stored column value; the two timestamp columns pass through `_ensure_tz`
exactly as in the source. -/
def jobModelToResponse (j : Job) : List (String × Value) :=
  [("id", getCol j "id"),
   ("version", getCol j "version"),
   ("externalId", getCol j "external_id"),
   ("approach", getCol j "approach"),
   ("title", getCol j "title"),
   ("description", getCol j "description"),
   ("organisation", getCol j "organisation"),
   ("location", getCol j "location"),
   ("grade", getCol j "grade"),
   ("assignmentType", getCol j "assignment_type"),
   ("workLocation", getCol j "work_location"),
   ("workingPattern", getCol j "working_pattern"),
   ("personalSpec", getCol j "personal_spec"),
   ("applyDetail", getCol j "apply_detail"),
   ("datePosted", ensureTz (getCol j "date_posted")),
   ("dateClosing", ensureTz (getCol j "closing_date")),
   ("profession", getCol j "profession"),
   ("recruitmentEmail", getCol j "recruitment_email"),
   ("contacts", getCol j "contacts"),
   ("nationalityRequirement", getCol j "nationality_requirement"),
   ("summary", getCol j "summary"),
   ("applyUrl", getCol j "apply_url"),
   ("benefits", getCol j "benefits"),
   ("salary", getCol j "salary"),
   ("jobNumbers", getCol j "job_numbers"),
   ("successProfileDetails", getCol j "success_profile_details"),
   ("diversityStatement", getCol j "diversity_statement"),
   ("disabilityConfident", getCol j "disability_confident"),
   ("dcStatus", getCol j "dc_status"),
   ("redeploymentScheme", getCol j "redeployment_scheme"),
   ("prisonScheme", getCol j "prison_scheme"),
   ("veteranScheme", getCol j "veteran_scheme"),
   ("criminalRecordCheck", getCol j "criminal_record_check"),
   ("complaintsInfo", getCol j "complaints_info"),
   ("workingForTheCivilService", getCol j "working_for_the_civil_service"),
   ("eligibilityCheck", getCol j "eligibility_check"),
   ("attachments", getCol j "attachments")]

/-- A record whose two timestamp columns are timezone-aware (the columns are
declared `DateTime(timezone=True)`), so that `_ensure_tz` is the identity on
them. -/
def datesAware (j : Job) : Prop :=
  ensureTz (getCol j "date_posted") = getCol j "date_posted" ∧
  ensureTz (getCol j "closing_date") = getCol j "closing_date"

/-- A concrete persisted record used by the witness theorems. -/
def jW : Job := ⟨"id-9", 1, "ext-9", [("title", .vprim (.pstr "T"))]⟩

/-- A concrete create/replace payload used by the witness theorems. -/
def pW : CreatePayload := ⟨"ext-9", [("title", .vprim (.pstr "T"))]⟩

/-- A concrete patch payload setting one field, used by the witness theorems. -/
def pU : UpdatePayload := ⟨[("summary", .vprim (.pstr "S"))]⟩

end JobsApi

namespace JobsApi

mutual

theorem toPlain_plainToValue (p : Plain) : toPlain (plainToValue p) = plainToValue p := by
  cases p with
  | jnull => rfl
  | jprim q => rfl
  | jarr items => simp [plainToValue, toPlain, toPlainList_plainListToValue items]
  | jobj entries => simp [plainToValue, toPlain, toPlainEntries_plainObjToValue entries]

theorem toPlainList_plainListToValue (xs : List Plain) :
    toPlainList (plainListToValue xs) = plainListToValue xs := by
  cases xs with
  | nil => rfl
  | cons x tail =>
    simp [plainListToValue, toPlainList, toPlain_plainToValue x,
      toPlainList_plainListToValue tail]

theorem toPlainEntries_plainObjToValue (xs : List (String × Plain)) :
    toPlainEntries (plainObjToValue xs) = plainObjToValue xs := by
  cases xs with
  | nil => rfl
  | cons kv tail =>
    obtain ⟨k, v⟩ := kv
    simp [plainObjToValue, toPlainEntries, toPlain_plainToValue v,
      toPlainEntries_plainObjToValue tail]

end

mutual

theorem toPlain_toPlain (v : Value) : toPlain (toPlain v) = toPlain v := by
  cases v with
  | vnone => rfl
  | venum p => rfl
  | vmodel dump => simp [toPlain, toPlainEntries_plainObjToValue dump]
  | vlist items => simp [toPlain, toPlainList_toPlainList items]
  | vdict entries => simp [toPlain, toPlainEntries_toPlainEntries entries]
  | vdatetime d => rfl
  | vprim p => rfl
  | vother s => rfl

theorem toPlainList_toPlainList (xs : List Value) :
    toPlainList (toPlainList xs) = toPlainList xs := by
  cases xs with
  | nil => rfl
  | cons x tail =>
    simp [toPlainList, toPlain_toPlain x, toPlainList_toPlainList tail]

theorem toPlainEntries_toPlainEntries (xs : List (String × Value)) :
    toPlainEntries (toPlainEntries xs) = toPlainEntries xs := by
  cases xs with
  | nil => rfl
  | cons kv tail =>
    obtain ⟨k, v⟩ := kv
    simp [toPlainEntries, toPlain_toPlain v, toPlainEntries_toPlainEntries tail]

end

end JobsApi

namespace JobsApi

theorem pyOrZero_eq (v : Nat) : pyOrZero v = v := by
  unfold pyOrZero
  split
  next h => exact (eq_of_beq h).symm
  next => rfl

theorem setAttr_id (j : Job) (k : String) (v : Value) : (setAttr j k v).id = j.id := by
  unfold setAttr
  split
  · rfl
  · split <;> rfl

theorem setAttr_version (j : Job) (k : String) (v : Value) (h : k ≠ "version") :
    (setAttr j k v).version = j.version := by
  unfold setAttr
  split
  · rfl
  · split
    next h2 => exact absurd (eq_of_beq h2) h
    next => rfl

theorem setAttr_ext (j : Job) (k : String) (v : Value) (h : k ≠ "external_id") :
    (setAttr j k v).external_id = j.external_id := by
  unfold setAttr
  split
  next h1 => exact absurd (eq_of_beq h1) h
  next => split <;> rfl

theorem applyUpdates_id (u : List (String × Value)) (j : Job) :
    (applyUpdates j u).id = j.id := by
  induction u generalizing j with
  | nil => rfl
  | cons kv rest ih =>
    show (List.foldl setAttrSkipId (setAttrSkipId j kv) rest).id = j.id
    rw [show (List.foldl setAttrSkipId (setAttrSkipId j kv) rest) = applyUpdates (setAttrSkipId j kv) rest from rfl]
    rw [ih]
    unfold setAttrSkipId
    split
    · rfl
    · exact setAttr_id j kv.1 kv.2

theorem applyUpdates_version (u : List (String × Value)) (j : Job)
    (h : ∀ kv ∈ u, kv.1 ≠ "version") : (applyUpdates j u).version = j.version := by
  induction u generalizing j with
  | nil => rfl
  | cons kv rest ih =>
    show (applyUpdates (setAttrSkipId j kv) rest).version = j.version
    rw [ih (setAttrSkipId j kv) (fun e he => h e (List.mem_cons_of_mem kv he))]
    unfold setAttrSkipId
    split
    · rfl
    · exact setAttr_version j kv.1 kv.2 (h kv (List.mem_cons_self kv rest))

theorem applyUpdates_ext (u : List (String × Value)) (j : Job) (e : String)
    (hj : j.external_id = e)
    (h : ∀ kv ∈ u, kv.1 = "external_id" → kv.2 = Value.vprim (.pstr e)) :
    (applyUpdates j u).external_id = e := by
  induction u generalizing j with
  | nil => exact hj
  | cons kv rest ih =>
    show (applyUpdates (setAttrSkipId j kv) rest).external_id = e
    refine ih (setAttrSkipId j kv) ?_ (fun x hx hxk => h x (List.mem_cons_of_mem kv hx) hxk)
    unfold setAttrSkipId
    split
    · exact hj
    · by_cases hk : kv.1 = "external_id"
      · have hv := h kv (List.mem_cons_self kv rest) hk
        rw [hk, hv]
        unfold setAttr valueAsStr
        simp
      · rw [setAttr_ext j kv.1 kv.2 hk]
        exact hj

theorem foldNew_version (u : List (String × Value)) (b : Job)
    (h : ∀ kv ∈ u, kv.1 ≠ "version") : (List.foldl setAttrNew b u).version = b.version := by
  induction u generalizing b with
  | nil => rfl
  | cons kv rest ih =>
    show (List.foldl setAttrNew (setAttrNew b kv) rest).version = b.version
    rw [ih (setAttrNew b kv) (fun e he => h e (List.mem_cons_of_mem kv he))]
    unfold setAttrNew
    split
    · rfl
    · exact setAttr_version b kv.1 kv.2 (h kv (List.mem_cons_self kv rest))

theorem dictInsert_mem {d : List (String × Value)} {k : String} {v : Value}
    {kv : String × Value} (h : kv ∈ dictInsert d k v) : kv ∈ d ∨ kv = (k, v) := by
  induction d with
  | nil =>
    right
    simpa [dictInsert] using h
  | cons e rest ih =>
    unfold dictInsert at h
    split at h
    · rcases List.mem_cons.mp h with h1 | h2
      · right; exact h1
      · left; exact List.mem_cons_of_mem e h2
    · rcases List.mem_cons.mp h with h1 | h2
      · left; rw [h1]; exact List.mem_cons_self e rest
      · rcases ih h2 with h3 | h4
        · left; exact List.mem_cons_of_mem e h3
        · right; exact h4

theorem normFoldl_mem (entries : List (String × Value)) (acc : List (String × Value))
    (kv : String × Value)
    (h : kv ∈ entries.foldl (fun a e => dictInsert a (mapField e.1) (toPlain e.2)) acc) :
    kv ∈ acc ∨ ∃ e ∈ entries, kv = (mapField e.1, toPlain e.2) := by
  induction entries generalizing acc with
  | nil => exact Or.inl h
  | cons e rest ih =>
    rcases ih (dictInsert acc (mapField e.1) (toPlain e.2)) h with h1 | h2
    · rcases dictInsert_mem h1 with h3 | h4
      · exact Or.inl h3
      · exact Or.inr ⟨e, List.mem_cons_self e rest, h4⟩
    · rcases h2 with ⟨x, hx, hkv⟩
      exact Or.inr ⟨x, List.mem_cons_of_mem e hx, hkv⟩

theorem normalizeEntries_mem {entries : List (String × Value)} {kv : String × Value}
    (h : kv ∈ normalizeEntries entries) :
    ∃ e ∈ entries, kv = (mapField e.1, toPlain e.2) := by
  rcases normFoldl_mem entries [] kv h with h1 | h2
  · cases h1
  · exact h2

theorem normalizeCreate_mem {p : CreatePayload} {kv : String × Value}
    (h : kv ∈ normalizeCreate p) :
    kv = ("external_id", Value.vprim (.pstr p.external_id)) ∨
      ∃ e ∈ p.fields, kv = (mapField e.1, toPlain e.2) := by
  rcases normalizeEntries_mem h with ⟨e, he, hkv⟩
  rcases List.mem_cons.mp he with h1 | h2
  · left
    rw [h1] at hkv
    exact hkv
  · right
    exact ⟨e, h2, hkv⟩

theorem find?_dictInsert (d : List (String × Value)) (k : String) (v : Value) :
    (dictInsert d k v).find? (fun kv => kv.1 == k) = some (k, v) := by
  induction d with
  | nil => simp [dictInsert, List.find?]
  | cons e rest ih =>
    unfold dictInsert
    split
    · simp [List.find?]
    next hne =>
      rw [List.find?]
      simp only [hne]
      exact ih

end JobsApi

namespace JobsApi

/-- C7: value normalization (enum to primitive value, nested model to
mapping, recursive normalization of lists and dicts, fallback of other
non-primitives to their string representation) is idempotent: for every
input value, applying `_to_plain` twice yields the same result as applying
it once. -/
theorem to_plain_idempotent : ∀ v : Value, toPlain (toPlain v) = toPlain v :=
  toPlain_toPlain

/-- C1 (evaluating the code at the failing behaviour): none of the three
mutation handlers ever invokes the Change Notifier.  On every input — in
particular on every successful create, replace and partial update — the list
of `send_job_message` invocations performed by `create_job`, `replace_job`
and `update_job` is empty, where the claim (and the repository's own tests)
require exactly one invocation per successful mutation. -/
theorem handlers_never_invoke_notifier :
    ∀ (newId : String) (db : List Job) (p : CreatePayload) (pathId : String)
      (q : UpdatePayload),
      (create_job newId db p).sent = [] ∧ (replace_job db pathId p).sent = [] ∧
        (update_job db pathId q).sent = [] := by
  intro newId db p pathId q
  refine ⟨?_, ?_, ?_⟩
  · unfold create_job
    cases findJob db p.external_id <;> rfl
  · unfold replace_job
    split
    · rfl
    · cases findJob db pathId <;> rfl
  · unfold update_job
    cases findJob db pathId with
    | none => rfl
    | some job =>
      dsimp only
      split
      · rfl
      · split <;> rfl

/-- C3: a create request whose external id already exists in the store fails
with Conflict (409), performs no mutation, and sends nothing: the store is
returned unchanged, so the existing record and its version are untouched. -/
theorem create_conflict_no_mutation (newId : String) (db : List Job) (p : CreatePayload)
    (j : Job) (h : findJob db p.external_id = some j) :
    create_job newId db p = ⟨db, .error .conflict, []⟩ := by
  unfold create_job
  rw [h]

theorem create_conflict_no_mutation_witness :
    create_job "id-0" [jW] pW = ⟨[jW], .error .conflict, []⟩ :=
  create_conflict_no_mutation "id-0" [jW] pW jW rfl

/-- C6: a replace request whose body external id differs from the path
external id fails with Bad-Request (400) before any store lookup (the result
is 400 even on a store in which the path external id does not exist at all),
performs no mutation, and produces zero notifier invocations. -/
theorem replace_mismatch_rejected_before_lookup (db : List Job) (pathId : String)
    (p : CreatePayload) (h : p.external_id ≠ pathId) :
    replace_job db pathId p = ⟨db, .error .badRequest, []⟩ := by
  unfold replace_job
  rw [if_pos h]

theorem replace_mismatch_rejected_before_lookup_witness :
    replace_job [] "ext-1" pW = ⟨[], .error .badRequest, []⟩ :=
  replace_mismatch_rejected_before_lookup [] "ext-1" pW (by decide)

/-- C4: a partial-update request on an existing record whose effective
(mapped) set of changed fields is empty changes nothing: the store is
returned unchanged (so no field and not the version of the stored record
changes), the Change Notifier is not invoked, and the current record is
still returned with success. -/
theorem patch_empty_fieldset_noop (db : List Job) (pathId : String) (q : UpdatePayload)
    (j : Job) (hfind : findJob db pathId = some j)
    (hempty : normalizeEntries q.entries = []) :
    update_job db pathId q = ⟨db, .ok j, []⟩ := by
  unfold update_job
  rw [hfind]
  dsimp only
  rw [hempty]
  rfl

theorem patch_empty_fieldset_noop_witness :
    update_job [jW] "ext-9" ⟨[]⟩ = ⟨[jW], .ok jW, []⟩ :=
  patch_empty_fieldset_noop [jW] "ext-9" ⟨[]⟩ jW rfl rfl

end JobsApi

namespace JobsApi

theorem normalizeCreate_no_version {p : CreatePayload} (hgood : goodFields p.fields) :
    ∀ kv ∈ normalizeCreate p, kv.1 ≠ "version" := by
  intro kv hkv
  rcases normalizeCreate_mem hkv with h1 | ⟨e, he, h2⟩
  · rw [h1]; exact (by decide : ("external_id" : String) ≠ "version")
  · rw [h2]; exact (hgood e he).2.1

theorem normalizeCreate_ext_val {p : CreatePayload} (hgood : goodFields p.fields) :
    ∀ kv ∈ normalizeCreate p, kv.1 = "external_id" →
      kv.2 = Value.vprim (.pstr p.external_id) := by
  intro kv hkv hk
  rcases normalizeCreate_mem hkv with h1 | ⟨e, he, h2⟩
  · rw [h1]
  · exfalso
    apply (hgood e he).2.2
    rw [h2] at hk
    exact hk

theorem normalizeEntries_no_version {q : UpdatePayload} (hgood : goodPatchFields q.entries) :
    ∀ kv ∈ normalizeEntries q.entries, kv.1 ≠ "version" := by
  intro kv hkv
  rcases normalizeEntries_mem hkv with ⟨e, he, h2⟩
  rw [h2]
  exact hgood e he

/-- C2: version bookkeeping.  A successful create yields a record with
version 1; a successful replace yields version exactly one more than the
stored record's (regardless of whether any field value changed); a successful
partial update whose effective (mapped) field set is non-empty yields version
exactly one more than the stored record's.  The `goodFields`/`goodPatchFields`
hypotheses record that no schema field of a validated payload maps to the
`version` (or identifier) columns, so version is never set from client
input; since these are the only mutating operations, version is never
decremented. -/
theorem version_protocol :
    (∀ (newId : String) (db : List Job) (p : CreatePayload) (j2 : Job),
        goodFields p.fields → (create_job newId db p).outcome = .ok j2 →
        j2.version = 1) ∧
    (∀ (db : List Job) (pathId : String) (p : CreatePayload) (j j2 : Job),
        goodFields p.fields → findJob db pathId = some j →
        (replace_job db pathId p).outcome = .ok j2 →
        j2.version = j.version + 1) ∧
    (∀ (db : List Job) (pathId : String) (q : UpdatePayload) (j j2 : Job),
        goodPatchFields q.entries → findJob db pathId = some j →
        (normalizeEntries q.entries).isEmpty = false →
        (update_job db pathId q).outcome = .ok j2 →
        j2.version = j.version + 1) := by
  refine ⟨?_, ?_, ?_⟩
  · intro newId db p j2 hgood hout
    unfold create_job at hout
    cases hf : findJob db p.external_id with
    | some j => rw [hf] at hout; simp at hout
    | none =>
      rw [hf] at hout
      dsimp only at hout
      injection hout with h
      rw [← h]
      unfold jobModelNew
      exact foldNew_version _ _ (normalizeCreate_no_version hgood)
  · intro db pathId p j j2 hgood hfind hout
    unfold replace_job at hout
    split at hout
    · simp at hout
    · rw [hfind] at hout
      dsimp only at hout
      injection hout with h
      rw [← h]
      show pyOrZero (applyUpdates j (normalizeCreate p)).version + 1 = j.version + 1
      rw [applyUpdates_version _ _ (normalizeCreate_no_version hgood), pyOrZero_eq]
  · intro db pathId q j j2 hgood hfind hne hout
    unfold update_job at hout
    rw [hfind] at hout
    dsimp only at hout
    split at hout
    · simp at hout
    · split at hout
      next hemp => rw [hne] at hemp; simp at hemp
      next =>
        injection hout with h
        rw [← h]
        show pyOrZero (applyUpdates j (normalizeEntries q.entries)).version + 1 =
          j.version + 1
        rw [applyUpdates_version _ _ (normalizeEntries_no_version hgood), pyOrZero_eq]

theorem version_protocol_witness :
    (jobModelNew "id-9" (normalizeCreate pW)).version = 1 ∧
    (⟨"id-9", 2, "ext-9", [("title", Value.vprim (.pstr "T"))]⟩ : Job).version =
      jW.version + 1 ∧
    (⟨"id-9", 2, "ext-9",
        [("title", Value.vprim (.pstr "T")), ("summary", Value.vprim (.pstr "S"))]⟩ :
        Job).version = jW.version + 1 :=
  ⟨version_protocol.1 "id-9" [] pW _ (by decide) rfl,
   version_protocol.2.1 [jW] "ext-9" pW jW _ (by decide) rfl rfl,
   version_protocol.2.2 [jW] "ext-9" pU jW _ (by decide) rfl rfl rfl⟩

end JobsApi

namespace JobsApi

/-- C9: identifier immutability.  On every successful replace and every
successful partial update, the returned (and persisted) record keeps the
stored record's `id` (internal id) and `external_id`: once created, a
record's identifiers are frozen. -/
theorem identifiers_frozen :
    (∀ (db : List Job) (pathId : String) (p : CreatePayload) (j j2 : Job),
        goodFields p.fields → findJob db pathId = some j →
        (replace_job db pathId p).outcome = .ok j2 →
        j2.id = j.id ∧ j2.external_id = j.external_id) ∧
    (∀ (db : List Job) (pathId : String) (q : UpdatePayload) (j j2 : Job),
        findJob db pathId = some j → (update_job db pathId q).outcome = .ok j2 →
        j2.id = j.id ∧ j2.external_id = j.external_id) := by
  constructor
  · intro db pathId p j j2 hgood hfind hout
    unfold replace_job at hout
    split at hout
    · simp at hout
    next hne =>
      have hpe : p.external_id = pathId := not_not.mp hne
      have hfind2 := hfind
      unfold findJob at hfind2
      have hbeq := List.find?_some hfind2
      have hje : j.external_id = pathId := eq_of_beq hbeq
      rw [hfind] at hout
      dsimp only at hout
      injection hout with h
      rw [← h]
      constructor
      · show (applyUpdates j (normalizeCreate p)).id = j.id
        exact applyUpdates_id _ _
      · show (applyUpdates j (normalizeCreate p)).external_id = j.external_id
        apply applyUpdates_ext _ _ _ rfl
        intro kv hkv hk
        rw [normalizeCreate_ext_val hgood kv hkv hk, hpe, hje]
  · intro db pathId q j j2 hfind hout
    unfold update_job at hout
    rw [hfind] at hout
    dsimp only at hout
    split at hout
    · simp at hout
    next hany =>
      split at hout
      next =>
        injection hout with h
        rw [← h]
        exact ⟨rfl, rfl⟩
      next =>
        injection hout with h
        rw [← h]
        constructor
        · show (applyUpdates j (normalizeEntries q.entries)).id = j.id
          exact applyUpdates_id _ _
        · show (applyUpdates j (normalizeEntries q.entries)).external_id = j.external_id
          apply applyUpdates_ext _ _ _ rfl
          intro kv hkv hk
          exfalso
          apply hany
          apply List.any_eq_true.mpr
          refine ⟨kv, hkv, ?_⟩
          rw [hk]
          exact beq_self_eq_true _

theorem identifiers_frozen_witness :
    ((⟨"id-9", 2, "ext-9", [("title", Value.vprim (.pstr "T"))]⟩ : Job).id = jW.id ∧
      (⟨"id-9", 2, "ext-9", [("title", Value.vprim (.pstr "T"))]⟩ : Job).external_id =
        jW.external_id) ∧
    ((⟨"id-9", 2, "ext-9",
        [("title", Value.vprim (.pstr "T")), ("summary", Value.vprim (.pstr "S"))]⟩ :
        Job).id = jW.id ∧
      (⟨"id-9", 2, "ext-9",
        [("title", Value.vprim (.pstr "T")), ("summary", Value.vprim (.pstr "S"))]⟩ :
        Job).external_id = jW.external_id) :=
  ⟨identifiers_frozen.1 [jW] "ext-9" pW jW _ (by decide) rfl rfl,
   identifiers_frozen.2 [jW] "ext-9" pU jW _ rfl rfl⟩

/-- C5 counterexample: the claim states that a partial-update payload whose
external id field is present but equal to the path's external id is not
rejected on that ground; on this concrete store and payload (body external id
`ext-1`, path `ext-1`, values equal), `update_job` nonetheless fails with
Bad-Request and performs no mutation, refuting the claim as stated. -/
theorem patch_equal_external_id_rejected :
    update_job [⟨"id-1", 1, "ext-1", []⟩] "ext-1"
        ⟨[("externalId", Value.vprim (.pstr "ext-1"))]⟩ =
      ⟨[⟨"id-1", 1, "ext-1", []⟩], .error .badRequest, []⟩ := rfl

/-- C5 (amended): for every partial-update request on an existing record, if
the payload's external id field is present at all — with any value, equal to
or different from the path's external id — the operation fails with
Bad-Request (400) and performs no mutation; only a payload in which the
field is absent escapes that rejection (when it is absent, the call never
fails with Bad-Request). -/
theorem patch_external_id_presence_rejected (db : List Job) (pathId : String)
    (q : UpdatePayload) (j : Job) (hfind : findJob db pathId = some j) :
    ((normalizeEntries q.entries).any (fun kv => kv.1 == "external_id") = true →
        update_job db pathId q = ⟨db, .error .badRequest, []⟩) ∧
    ((normalizeEntries q.entries).any (fun kv => kv.1 == "external_id") = false →
        (update_job db pathId q).outcome ≠ .error .badRequest) := by
  constructor
  · intro hany
    unfold update_job
    rw [hfind]
    dsimp only
    rw [if_pos hany]
  · intro hany
    unfold update_job
    rw [hfind]
    dsimp only
    rw [if_neg (by rw [hany]; exact Bool.false_ne_true)]
    split <;> simp

theorem patch_external_id_presence_rejected_witness :
    update_job [jW] "ext-9" ⟨[("externalId", Value.vprim (.pstr "ext-9"))]⟩ =
      ⟨[jW], .error .badRequest, []⟩ :=
  (patch_external_id_presence_rejected [jW] "ext-9"
    ⟨[("externalId", Value.vprim (.pstr "ext-9"))]⟩ jW rfl).1 rfl

end JobsApi

namespace JobsApi

/-- C10: on a partial update of an existing record, a payload field
explicitly set to null counts as a change.  For a patch payload supplying a
single field with value null (for any wire key mapping to an ordinary
column), the call succeeds, the effective field set is non-empty, the stored
column is overwritten with null, and version is incremented by exactly 1 —
explicit null is not treated like omitting the field. -/
theorem patch_explicit_null_counts_as_change (db : List Job) (pathId : String)
    (j : Job) (k : String) (hfind : findJob db pathId = some j)
    (hk1 : mapField k ≠ "external_id") (hk2 : mapField k ≠ "id")
    (hk3 : mapField k ≠ "version") :
    ∃ j2, (update_job db pathId ⟨[(k, Value.vnone)]⟩).outcome = .ok j2 ∧
      j2.version = j.version + 1 ∧ getAttr j2 (mapField k) = some Value.vnone := by
  have hnorm : normalizeEntries [(k, Value.vnone)] = [(mapField k, Value.vnone)] := rfl
  have hv : ∀ kv ∈ [(mapField k, Value.vnone)], kv.1 ≠ "version" := by
    intro kv hkv
    rw [List.mem_singleton] at hkv
    rw [hkv]
    exact hk3
  have hany : ([(mapField k, Value.vnone)].any fun kv => kv.1 == "external_id") = false := by
    simp only [List.any_cons, List.any_nil, Bool.or_false]
    exact beq_eq_false_iff_ne.mpr hk1
  have happ : applyUpdates j [(mapField k, Value.vnone)] =
      { j with attrs := dictInsert j.attrs (mapField k) Value.vnone } := by
    show setAttrSkipId j (mapField k, Value.vnone) = _
    unfold setAttrSkipId
    rw [if_neg (fun hh => hk2 (eq_of_beq hh))]
    unfold setAttr
    rw [if_neg (fun hh => hk1 (eq_of_beq hh)), if_neg (fun hh => hk3 (eq_of_beq hh))]
  unfold update_job
  rw [hfind]
  dsimp only
  rw [hnorm]
  rw [if_neg (by rw [hany]; exact Bool.false_ne_true)]
  have hemp : ¬([(mapField k, Value.vnone)].isEmpty = true) := fun hh =>
    Bool.false_ne_true hh
  rw [if_neg hemp]
  refine ⟨_, rfl, ?_, ?_⟩
  · show pyOrZero (applyUpdates j [(mapField k, Value.vnone)]).version + 1 = j.version + 1
    rw [applyUpdates_version _ _ hv, pyOrZero_eq]
  · show getAttr
        { applyUpdates j [(mapField k, Value.vnone)] with
          version := pyOrZero (applyUpdates j [(mapField k, Value.vnone)]).version + 1 }
        (mapField k) = some Value.vnone
    unfold getAttr
    rw [happ]
    dsimp only
    rw [find?_dictInsert]
    rfl

theorem patch_explicit_null_counts_as_change_witness :
    ∃ j2, (update_job [jW] "ext-9" ⟨[("summary", Value.vnone)]⟩).outcome = .ok j2 ∧
      j2.version = jW.version + 1 ∧ getAttr j2 (mapField "summary") = some Value.vnone :=
  patch_explicit_null_counts_as_change [jW] "ext-9" jW "summary" rfl
    (by decide) (by decide) (by decide)

/-- C8: the wire-to-storage-to-wire field-name round trip is lossless and
idempotent for every field in the fixed job schema.  First conjunct: for
every schema field, translating the wire key through `FIELD_MAP` yields
exactly that field's storage column, and translating the column back through
the response mapping yields the original wire key (the round trip is the
identity on schema keys, hence idempotent).  Second conjunct: distinct
schema fields occupy distinct storage columns, so the translation loses no
information.  Third conjunct: for a record whose timestamp columns are
timezone-aware, the response carries every field's stored value unchanged. -/
theorem wire_storage_round_trip :
    (WIRE_RESPONSE.all (fun wc =>
        mapField wc.1 == wc.2 && storageToWire (mapField wc.1) == wc.1) = true) ∧
    (WIRE_RESPONSE.map (fun wc => wc.2)).Nodup ∧
    (∀ j, datesAware j →
        jobModelToResponse j = WIRE_RESPONSE.map (fun wc => (wc.1, getCol j wc.2))) := by
  refine ⟨rfl, by decide, ?_⟩
  intro j hj
  unfold jobModelToResponse WIRE_RESPONSE
  simp only [List.map_cons, List.map_nil]
  rw [hj.1, hj.2]

theorem wire_storage_round_trip_witness :
    jobModelToResponse jW = WIRE_RESPONSE.map (fun wc => (wc.1, getCol jW wc.2)) :=
  wire_storage_round_trip.2.2 jW ⟨rfl, rfl⟩

end JobsApi
